import Mathlib

/-!
Shallow embedding of the reference-audio pipeline (`app/training.py`) and the
thin API handlers (`app/api.py`) of the voice-cloning backend.

Audio is modelled at millisecond granularity: a `PCM` value is the list of
one-millisecond slivers of an `AudioSegment`, so `len(segment)` (pydub's
duration in ms) is `List.length`, concatenation (`+`) is `List.append`, and
the trailing slice `segment[-n:]` is `List.drop (length - n)`.

Filesystem state ambient to `SimpleTrainer` is made explicit in
`TrainerState`: the audio directory's `*.wav` listing, the reference file,
and the status file.  The status file is `Option (Option StatusRecord)`:
`none` means the file does not exist, `some none` means it exists but its
contents are unparsable JSON, `some (some r)` means it parses to `r`.
-/

/-- One uploaded audio clip is modelled as a list of abstract one-millisecond
slivers of PCM data. -/
abbrev PCM := List Nat

/-- An `audio_dir` entry: filename, `st_mtime`, and the result of
`AudioSegment.from_wav` on it (`none` when decoding raises). -/
structure AudioClip where
  name : String
  mtime : Nat
  data : Option PCM
  deriving Repr, DecidableEq

/-- The duration in milliseconds a clip contributes when it decodes
(`len(audio)` in pydub), and `0` when it fails to decode. -/
def clipDuration (c : AudioClip) : Nat := (c.data.getD []).length

/-- Total duration of a set of clips, counting only what decodes. -/
def sumDurations (clips : List AudioClip) : Nat :=
  (clips.map clipDuration).sum

/-- Embedding of `sorted(self.audio_dir.glob("*.wav"), key=lambda p:
p.stat().st_mtime)` (training.py line 35).  Python's `sorted` is a stable
sort by the key; `List.insertionSort` on `mtime ≤ mtime` is stable with the
same key, hence extensionally the same function. -/
def sortClips (clips : List AudioClip) : List AudioClip :=
  List.insertionSort (fun a b => a.mtime ≤ b.mtime) clips

/-- Embedding of `max_duration_ms = 20000` (training.py line 59). -/
def maxDurationMs : Nat := 20000

/-- Embedding of the pydub slice `combined[-n:]`: the trailing `n`
milliseconds of the segment (all of it when it is shorter than `n`). -/
def trailingTake (n : Nat) (pcm : PCM) : PCM :=
  pcm.drop (pcm.length - n)

/-- Embedding of training.py lines 60-64: trim to the trailing
`max_duration_ms` only when the combined duration strictly exceeds it. -/
def truncate (combined : PCM) : PCM :=
  if maxDurationMs < combined.length then trailingTake maxDurationMs combined
  else combined

/-- Failures a pipeline run can raise: the `ValueError` of training.py
line 38 when no audio files exist, and a propagated decode exception from
the single-file branch (line 45, outside any `try`). -/
inductive TrainError where
  | noAudio
  | decodeFailure
  deriving Repr, DecidableEq

/-- Embedding of the multi-file loop (training.py lines 49-56): fold over
the sorted files starting from `AudioSegment.empty()`, appending each file
that decodes and skipping (with a logged warning) each one that raises. -/
def combineAll (audio_files : List AudioClip) : PCM :=
  audio_files.foldl
    (fun combined c =>
      match c.data with
      | some audio => combined ++ audio
      | none => combined)
    []

/-- Embedding of `SimpleTrainer.concatenate_audio` (training.py lines
23-71): sort the clips by mtime, fail when there are none, use the single
clip directly when there is exactly one (its decode error propagates),
otherwise fold-concatenate with per-clip error absorption; finally trim to
the trailing 20000 ms.  The returned `PCM` is what `combined.export` writes
to `reference.wav`. -/
def concatenate_audio (clips : List AudioClip) : Except TrainError PCM :=
  let audio_files := sortClips clips
  match audio_files with
  | [] => Except.error TrainError.noAudio
  | [single] =>
    match single.data with
    | none => Except.error TrainError.decodeFailure
    | some audio => Except.ok (truncate audio)
  | _ :: _ :: _ => Except.ok (truncate (combineAll audio_files))

/-- The JSON record held in `training_status.json` (training.py lines
84-89).  Timestamps are abstract `Nat` instants. -/
structure StatusRecord where
  status : String
  audio_count : Nat
  last_trained : Option Nat
  model_path : Option String
  deriving Repr, DecidableEq

/-- The fixed reference path string written into `model_path`
(training.py line 88). -/
def referencePathStr : String := "data/model/reference.wav"

/-- Ambient filesystem state of `SimpleTrainer`, plus a ghost trace
`writes` of every status record written, in order, for stating
write-ordering properties. -/
structure TrainerState where
  clips : List AudioClip
  audioDirExists : Bool
  reference : Option PCM
  statusFile : Option (Option StatusRecord)
  writes : List StatusRecord
  deriving Repr, DecidableEq

/-- Embedding of `SimpleTrainer.update_status` (training.py lines 73-92):
overwrite the whole record, with `last_trained` set to the current time on
every write and `model_path` set iff `reference.wav` exists on disk. -/
def update_status (s : TrainerState) (status : String) (audio_count : Nat) (now : Nat) :
    TrainerState :=
  let status_data : StatusRecord :=
    { status := status
      audio_count := audio_count
      last_trained := some now
      model_path := if s.reference.isSome then some referencePathStr else none }
  { s with statusFile := some (some status_data), writes := s.writes ++ [status_data] }

/-- Failure of a status read: `json.loads` raising on unparsable contents
(training.py line 111). -/
inductive StatusError where
  | parseFailure
  deriving Repr, DecidableEq

/-- The record synthesized by `get_status` when no status file exists
(training.py lines 101-109): count the clips only when the audio directory
exists. -/
def defaultStatus (s : TrainerState) : StatusRecord :=
  { status := "idle"
    audio_count := if s.audioDirExists then s.clips.length else 0
    last_trained := none
    model_path := none }

/-- Embedding of `SimpleTrainer.get_status` (training.py lines 94-111): a
missing file yields the synthesized default; an existing file is parsed by
`json.loads`, whose failure on corrupt contents propagates to the caller. -/
def get_status (s : TrainerState) : Except StatusError StatusRecord :=
  match s.statusFile with
  | none => Except.ok (defaultStatus s)
  | some none => Except.error StatusError.parseFailure
  | some (some record) => Except.ok record

/-- Embedding of the `GET /status` handler (api.py lines 108-128): any
exception from `get_status` becomes an HTTP 500 response. -/
def api_get_status (s : TrainerState) : Except Nat StatusRecord :=
  match get_status s with
  | Except.ok record => Except.ok record
  | Except.error _ => Except.error 500

/-- Embedding of `SimpleTrainer.train` (training.py lines 113-135), with
`t1`/`t2` the instants of the two status writes: optimistically write
`training` with the current clip count, run the concatenation, then write
`ready` on success; on any exception write `error` with the re-measured
clip count and re-raise. -/
def train (s : TrainerState) (t1 t2 : Nat) : TrainerState × Except TrainError Unit :=
  let s1 := update_status s "training" s.clips.length t1
  match concatenate_audio s1.clips with
  | Except.error e =>
    (update_status s1 "error" s1.clips.length t2, Except.error e)
  | Except.ok pcm =>
    let s2 : TrainerState := { s1 with reference := some pcm }
    (update_status s2 "ready" s2.clips.length t2, Except.ok ())

/-- Outcome of the `POST /synthesize` handler, recording the HTTP status
and whether the opaque synthesis adapter (`tts_service.generate`) was
reached. -/
structure SynthesisOutcome where
  httpStatus : Nat
  adapterInvoked : Bool
  deriving Repr, DecidableEq

/-- Embedding of Python's `str.strip()`: remove leading and trailing
whitespace from a text modelled as its sequence of characters. -/
def strip (text : List Char) : List Char :=
  ((text.dropWhile Char.isWhitespace).reverse.dropWhile Char.isWhitespace).reverse

/-- Embedding of the `POST /synthesize` handler's precondition checks
(api.py lines 142-160): 400 when `reference.wav` does not exist, when the
text is falsy or strips to empty, or when the raw text exceeds 500
characters; otherwise the adapter is invoked. -/
def synthesize (referenceExists : Bool) (text : List Char) : SynthesisOutcome :=
  if referenceExists = false then
    { httpStatus := 400, adapterInvoked := false }
  else if text = [] ∨ (strip text).length = 0 then
    { httpStatus := 400, adapterInvoked := false }
  else if 500 < text.length then
    { httpStatus := 400, adapterInvoked := false }
  else
    { httpStatus := 200, adapterInvoked := true }

/-- A filesystem operation relevant to how the reference file is
persisted. -/
inductive FsOp where
  | writeFile (path : String)
  | rename (src dst : String)
  deriving Repr, DecidableEq

/-- The filesystem operations `combined.export(str(reference_path),
format="wav")` performs (training.py line 68): pydub opens the destination
path itself and writes the WAV data into it in place.  No temporary file
and no rename are involved. -/
def persistReferenceOps : List FsOp :=
  [FsOp.writeFile referencePathStr]

/-! Helper lemmas about the embedded pipeline. -/

/-- Sorting the clip listing is a permutation of it. -/
lemma sortClips_perm (clips : List AudioClip) : (sortClips clips).Perm clips :=
  List.perm_insertionSort _ clips

/-- Sorting preserves the number of clips. -/
lemma sortClips_length (clips : List AudioClip) :
    (sortClips clips).length = clips.length :=
  (sortClips_perm clips).length_eq

/-- The multi-file fold, started from any accumulator, appends exactly the
data of the clips that decode, in order. -/
lemma combineAll_go (files : List AudioClip) (acc : PCM) :
    files.foldl
      (fun combined c =>
        match c.data with
        | some audio => combined ++ audio
        | none => combined)
      acc
      = acc ++ (files.filterMap (fun c => c.data)).flatten := by
  induction files generalizing acc with
  | nil => simp
  | cons c cs ih =>
    cases h : c.data with
    | none => simp [h, ih]
    | some audio => simp [h, ih]

/-- The multi-file loop concatenates exactly the clips that decode, in
listing order; failing clips contribute nothing. -/
lemma combineAll_eq_flatten (files : List AudioClip) :
    combineAll files = (files.filterMap (fun c => c.data)).flatten := by
  simpa using combineAll_go files []

/-- A trailing slice of `n` milliseconds has duration `min length n`. -/
lemma trailingTake_length (n : Nat) (pcm : PCM) :
    (trailingTake n pcm).length = min pcm.length n := by
  simp [trailingTake]
  omega

/-- Trimming is the same as always taking the trailing 20000 ms, because a
trailing slice of a shorter segment is the whole segment. -/
lemma truncate_eq_trailingTake (pcm : PCM) :
    truncate pcm = trailingTake maxDurationMs pcm := by
  unfold truncate trailingTake
  split
  · rfl
  · rename_i h
    have h0 : pcm.length - maxDurationMs = 0 := by omega
    simp [h0]

/-- The trimmed duration is the concatenated duration capped at 20000 ms. -/
lemma truncate_length (pcm : PCM) :
    (truncate pcm).length = min pcm.length maxDurationMs := by
  rw [truncate_eq_trailingTake, trailingTake_length]

/-- The combined duration is the sum of the clips' durations (a failing
clip has duration 0 and contributes nothing). -/
lemma combineAll_length (files : List AudioClip) :
    (combineAll files).length = sumDurations files := by
  rw [combineAll_eq_flatten, List.length_flatten, sumDurations]
  induction files with
  | nil => simp
  | cons c cs ih =>
    cases h : c.data with
    | none => simp [h, ih, clipDuration]
    | some audio => simp [h, ih, clipDuration]

/-- Total duration is invariant under sorting. -/
lemma sumDurations_sortClips (clips : List AudioClip) :
    sumDurations (sortClips clips) = sumDurations clips :=
  ((sortClips_perm clips).map clipDuration).sum_eq

/-- With at least one clip, and a decodable clip in the singleton case,
`concatenate_audio` succeeds and returns the trimmed concatenation of the
sorted listing. -/
lemma concatenate_audio_eq (clips : List AudioClip) (hne : clips ≠ [])
    (hsingle : ∀ c, sortClips clips = [c] → c.data ≠ none) :
    concatenate_audio clips = Except.ok (truncate (combineAll (sortClips clips))) := by
  have hlen : (sortClips clips).length = clips.length := sortClips_length clips
  unfold concatenate_audio
  cases hs : sortClips clips with
  | nil =>
    exfalso
    apply hne
    rw [hs] at hlen
    exact List.length_eq_zero.mp hlen.symm
  | cons a t =>
    cases t with
    | nil =>
      cases hd : a.data with
      | none => exact absurd hd (hsingle a hs)
      | some audio =>
        simp [hd, combineAll]
    | cons b t2 =>
      simp

/-- Writing the status file does not touch the audio directory. -/
lemma update_status_clips (s : TrainerState) (st : String) (n t : Nat) :
    (update_status s st n t).clips = s.clips := rfl

/-- Writing the status file does not touch the reference file. -/
lemma update_status_reference (s : TrainerState) (st : String) (n t : Nat) :
    (update_status s st n t).reference = s.reference := rfl

/-- One-step unfolding of `train`, with the clip listing read through the
unchanged state. -/
lemma train_eq (s : TrainerState) (t1 t2 : Nat) :
    train s t1 t2 =
      match concatenate_audio s.clips with
      | Except.error e =>
        (update_status (update_status s "training" s.clips.length t1) "error"
          s.clips.length t2, Except.error e)
      | Except.ok pcm =>
        (update_status
          { update_status s "training" s.clips.length t1 with reference := some pcm }
          "ready" s.clips.length t2, Except.ok ()) := rfl

/-- A pipeline run never adds or removes clips. -/
lemma train_clips (s : TrainerState) (t1 t2 : Nat) :
    (train s t1 t2).fst.clips = s.clips := by
  rw [train_eq]
  cases hc : concatenate_audio s.clips with
  | error e => simp [update_status]
  | ok pcm => simp [update_status]

/-- When concatenation succeeds, the run succeeds and the produced PCM is
persisted as the reference. -/
lemma train_ok_reference (s : TrainerState) (t1 t2 : Nat) (pcm : PCM)
    (hc : concatenate_audio s.clips = Except.ok pcm) :
    (train s t1 t2).snd = Except.ok () ∧
    (train s t1 t2).fst.reference = some pcm := by
  rw [train_eq, hc]
  simp [update_status]

/-- A successful run means concatenation succeeded on the clip listing. -/
lemma train_snd_ok (s : TrainerState) (t1 t2 : Nat)
    (h : (train s t1 t2).snd = Except.ok ()) :
    ∃ pcm, concatenate_audio s.clips = Except.ok pcm := by
  rw [train_eq] at h
  cases hc : concatenate_audio s.clips with
  | error e =>
    rw [hc] at h
    simp at h
  | ok pcm => exact ⟨pcm, rfl⟩

/-! Concrete states used as witnesses and counterexamples. -/

/-- Two decodable clips whose mtimes are opposite to their listing order. -/
def twoClips : List AudioClip :=
  [⟨"b", 2, some [3, 4]⟩, ⟨"a", 1, some [1, 2]⟩]

/-- A trainer state with an empty audio directory. -/
def zeroState : TrainerState :=
  { clips := [], audioDirExists := true, reference := none, statusFile := none, writes := [] }

/-- A trainer state whose status file exists but holds unparsable JSON. -/
def corruptStatusState : TrainerState :=
  { clips := [], audioDirExists := true, reference := none,
    statusFile := some none, writes := [] }

/-- A single clip lasting 20001 ms, one millisecond over the ceiling. -/
def longClip : AudioClip := ⟨"long", 1, some (List.replicate 20001 0)⟩

/-- Two clips of which the first fails to decode. -/
def mixedClips : List AudioClip :=
  [⟨"a", 1, none⟩, ⟨"b", 2, some [5]⟩]

/-- A trainer state with one decodable clip and no status file. -/
def oneClipState : TrainerState :=
  { clips := [⟨"a", 1, some [1, 2]⟩], audioDirExists := true, reference := none,
    statusFile := none, writes := [] }

/-- A trainer state with two clips that both fail to decode. -/
def twoBadState : TrainerState :=
  { clips := [⟨"a", 1, none⟩, ⟨"b", 2, none⟩], audioDirExists := true,
    reference := none, statusFile := none, writes := [] }

/-- A fresh trainer state: two clips on disk, no status file yet. -/
def freshState : TrainerState :=
  { clips := [⟨"a", 1, some [1, 2]⟩, ⟨"b", 2, some [3]⟩], audioDirExists := true,
    reference := none, statusFile := none, writes := [] }

/-! Claim theorems. -/

/-- Claim C1: for every non-empty set of AudioClips on disk (all of which,
being AudioClips, decode), the run produces a ReferenceSample whose
duration is `min(sum of the clips' durations, 20000 ms)`, and the retained
audio is exactly the trailing 20000 ms of the concatenation in clip-sort
order. -/
theorem run_duration_and_trailing (clips : List AudioClip)
    (hne : clips ≠ []) (hdec : ∀ c ∈ clips, c.data ≠ none) :
    ∃ pcm, concatenate_audio clips = Except.ok pcm ∧
      pcm.length = min (sumDurations clips) maxDurationMs ∧
      pcm = trailingTake maxDurationMs (combineAll (sortClips clips)) := by
  have hsingle : ∀ c, sortClips clips = [c] → c.data ≠ none := by
    intro c hc
    apply hdec
    have hm : c ∈ sortClips clips := by
      rw [hc]
      exact List.mem_singleton.mpr rfl
    exact (sortClips_perm clips).mem_iff.mp hm
  refine ⟨truncate (combineAll (sortClips clips)),
    concatenate_audio_eq clips hne hsingle, ?_, truncate_eq_trailingTake _⟩
  rw [truncate_length, combineAll_length, sumDurations_sortClips]

/-- Claim C1 witness: the property evaluated on two concrete clips. -/
theorem run_duration_and_trailing_witness :
    twoClips ≠ [] ∧ (∀ c ∈ twoClips, c.data ≠ none) ∧
    (∃ pcm, concatenate_audio twoClips = Except.ok pcm ∧
      pcm.length = min (sumDurations twoClips) maxDurationMs ∧
      pcm = trailingTake maxDurationMs (combineAll (sortClips twoClips))) :=
  ⟨by decide, by decide,
    run_duration_and_trailing twoClips (by decide) (by decide)⟩

/-- Claim C2: a run over zero AudioClips first writes status `training`
(with count 0), then fails with the no-audio error, overwrites the status
to `error` with audio_count 0, and propagates the failure to the caller. -/
theorem train_zero_clips (s : TrainerState) (t1 t2 : Nat) (h : s.clips = []) :
    (train s t1 t2).snd = Except.error TrainError.noAudio ∧
    (train s t1 t2).fst.writes = s.writes ++
      [ { status := "training", audio_count := 0, last_trained := some t1,
          model_path := if s.reference.isSome then some referencePathStr else none },
        { status := "error", audio_count := 0, last_trained := some t2,
          model_path := if s.reference.isSome then some referencePathStr else none } ] ∧
    (train s t1 t2).fst.statusFile = some (some
      { status := "error", audio_count := 0, last_trained := some t2,
        model_path := if s.reference.isSome then some referencePathStr else none }) := by
  have hc : concatenate_audio s.clips = Except.error TrainError.noAudio := by
    rw [h]
    rfl
  rw [train_eq, hc]
  simp [update_status, h]

/-- Claim C2 witness: the property evaluated on the empty-directory state. -/
theorem train_zero_clips_witness :
    zeroState.clips = [] ∧
    ((train zeroState 0 1).snd = Except.error TrainError.noAudio ∧
     (train zeroState 0 1).fst.writes = zeroState.writes ++
      [ { status := "training", audio_count := 0, last_trained := some 0,
          model_path := if zeroState.reference.isSome then some referencePathStr else none },
        { status := "error", audio_count := 0, last_trained := some 1,
          model_path := if zeroState.reference.isSome then some referencePathStr else none } ] ∧
     (train zeroState 0 1).fst.statusFile = some (some
      { status := "error", audio_count := 0, last_trained := some 1,
        model_path := if zeroState.reference.isSome then some referencePathStr else none })) :=
  ⟨rfl, train_zero_clips zeroState 0 1 rfl⟩

/-- Claim C3 counterexample: with a status file that exists but is
unparsable, `get_status` raises instead of returning the synthesized
default record, refuting the claim that corruption is treated as absence. -/
theorem corrupt_status_read_fails :
    get_status corruptStatusState = Except.error StatusError.parseFailure ∧
    get_status corruptStatusState ≠ Except.ok (defaultStatus corruptStatusState) :=
  ⟨rfl, fun h => Except.noConfusion h⟩

/-- Claim C3 (amended): only an absent status record is replaced by the
synthesized default; a record that exists but is unparsable makes the
status read fail, and the status endpoint turns that failure into an HTTP
500 response. -/
theorem corrupt_status_returns_500 (s : TrainerState) (h : s.statusFile = some none) :
    get_status s = Except.error StatusError.parseFailure ∧
    api_get_status s = Except.error 500 := by
  simp [get_status, api_get_status, h]

/-- Claim C3 witness: the amended property evaluated on a corrupt store. -/
theorem corrupt_status_returns_500_witness :
    corruptStatusState.statusFile = some none ∧
    (get_status corruptStatusState = Except.error StatusError.parseFailure ∧
     api_get_status corruptStatusState = Except.error 500) :=
  ⟨rfl, corrupt_status_returns_500 corruptStatusState rfl⟩

/-- Claim C4 counterexample: a single clip of 20001 ms is trimmed to its
trailing 20000 ms, so the ReferenceSample PCM is not the clip's PCM. -/
theorem single_long_clip_not_lossless :
    concatenate_audio [longClip] = Except.ok (List.replicate 20000 0) ∧
    concatenate_audio [longClip] ≠ Except.ok (List.replicate 20001 0) := by
  have h1 : concatenate_audio [longClip] =
      Except.ok (truncate (List.replicate 20001 0)) := rfl
  have h2 : truncate (List.replicate 20001 (0 : Nat)) = List.replicate 20000 0 := by
    unfold truncate
    rw [if_pos (by rw [List.length_replicate, maxDurationMs]; norm_num)]
    unfold trailingTake
    rw [List.length_replicate, List.drop_replicate, maxDurationMs]
  constructor
  · rw [h1, h2]
  · rw [h1, h2]
    intro h
    have hq := Except.ok.inj h
    have hl := congrArg List.length hq
    rw [List.length_replicate, List.length_replicate] at hl
    exact absurd hl (by norm_num)

/-- Claim C4 (amended): a run over exactly one AudioClip whose duration is
at most 20000 ms produces a ReferenceSample whose PCM equals that clip's
PCM exactly; a longer single clip is trimmed to its trailing 20000 ms. -/
theorem single_clip_lossless (c : AudioClip) (pcm : PCM)
    (hdata : c.data = some pcm) (hlen : pcm.length ≤ maxDurationMs) :
    concatenate_audio [c] = Except.ok pcm := by
  have hs : sortClips [c] = [c] := rfl
  unfold concatenate_audio
  rw [hs]
  simp [hdata, truncate, Nat.not_lt.mpr hlen]

/-- Claim C4 witness: the amended property evaluated on a short clip. -/
theorem single_clip_lossless_witness :
    (⟨"a", 1, some [1, 2]⟩ : AudioClip).data = some [1, 2] ∧
    ([1, 2] : PCM).length ≤ maxDurationMs ∧
    concatenate_audio [⟨"a", 1, some [1, 2]⟩] = Except.ok [1, 2] :=
  ⟨rfl, by decide, single_clip_lossless ⟨"a", 1, some [1, 2]⟩ [1, 2] rfl (by decide)⟩

/-- Claim C5: in a multi-clip run, clips that fail to decode are excluded
from the concatenation (only the `filterMap` of decodable clips is kept,
in sorted order) and do not abort the run: the run returns successfully. -/
theorem failed_clip_skipped (clips : List AudioClip) (h2 : 2 ≤ clips.length) :
    ∃ pcm, concatenate_audio clips = Except.ok pcm ∧
      pcm = truncate (((sortClips clips).filterMap (fun c => c.data)).flatten) := by
  have hne : clips ≠ [] := by
    intro h
    rw [h] at h2
    simp at h2
  have hsingle : ∀ c, sortClips clips = [c] → c.data ≠ none := by
    intro c hc
    exfalso
    have hl := sortClips_length clips
    rw [hc] at hl
    simp at hl
    omega
  refine ⟨truncate (combineAll (sortClips clips)),
    concatenate_audio_eq clips hne hsingle, ?_⟩
  rw [combineAll_eq_flatten]

/-- Claim C5 witness: the property evaluated on a pair of clips of which
the first fails to decode. -/
theorem failed_clip_skipped_witness :
    2 ≤ mixedClips.length ∧
    (∃ pcm, concatenate_audio mixedClips = Except.ok pcm ∧
      pcm = truncate (((sortClips mixedClips).filterMap (fun c => c.data)).flatten)) :=
  ⟨by decide, failed_clip_skipped mixedClips (by decide)⟩

/-- Claim C6: a second run on the state a successful run left behind, with
no clips added or removed in between, succeeds and persists a byte-identical
ReferenceSample, because the stable mtime sort and the concatenation are
deterministic functions of the unchanged clip listing. -/
theorem run_twice_identical (s : TrainerState) (t1 t2 t3 t4 : Nat)
    (h : (train s t1 t2).snd = Except.ok ()) :
    (train (train s t1 t2).fst t3 t4).snd = Except.ok () ∧
    (train (train s t1 t2).fst t3 t4).fst.reference =
      (train s t1 t2).fst.reference ∧
    (train s t1 t2).fst.reference ≠ none := by
  obtain ⟨pcm, hc⟩ := train_snd_ok s t1 t2 h
  have h1 := train_ok_reference s t1 t2 pcm hc
  have hc2 : concatenate_audio ((train s t1 t2).fst).clips = Except.ok pcm := by
    rw [train_clips]
    exact hc
  have h2 := train_ok_reference (train s t1 t2).fst t3 t4 pcm hc2
  refine ⟨h2.1, ?_, ?_⟩
  · rw [h2.2, h1.2]
  · rw [h1.2]
    simp

/-- Claim C6 witness: the property evaluated on a one-clip state. -/
theorem run_twice_identical_witness :
    (train oneClipState 0 1).snd = Except.ok () ∧
    ((train (train oneClipState 0 1).fst 2 3).snd = Except.ok () ∧
     (train (train oneClipState 0 1).fst 2 3).fst.reference =
       (train oneClipState 0 1).fst.reference ∧
     (train oneClipState 0 1).fst.reference ≠ none) :=
  ⟨rfl, run_twice_identical oneClipState 0 1 2 3 rfl⟩

/-- Claim C7: a synthesis request fails with HTTP 400 before the synthesis
adapter is invoked whenever no ReferenceSample exists, the text is empty
after trimming, or the text exceeds 500 characters. -/
theorem synthesize_precondition_400 (referenceExists : Bool) (text : List Char)
    (h : referenceExists = false ∨ (strip text).length = 0 ∨ 500 < text.length) :
    (synthesize referenceExists text).httpStatus = 400 ∧
    (synthesize referenceExists text).adapterInvoked = false := by
  unfold synthesize
  rcases h with h | h | h
  · simp [h]
  · by_cases h1 : referenceExists = false
    · simp [h1]
    · simp [h1, h]
  · by_cases h1 : referenceExists = false
    · simp [h1]
    · by_cases h2 : text = [] ∨ strip text = []
      · simp [h1, h2]
      · simp [h1, h2, h]

/-- Claim C7 witness: the property evaluated with no reference on disk. -/
theorem synthesize_precondition_400_witness :
    ((false : Bool) = false ∨ (strip ['h', 'i']).length = 0 ∨ 500 < ['h', 'i'].length) ∧
    ((synthesize false ['h', 'i']).httpStatus = 400 ∧
     (synthesize false ['h', 'i']).adapterInvoked = false) :=
  ⟨Or.inl rfl, synthesize_precondition_400 false ['h', 'i'] (Or.inl rfl)⟩

/-- Claim C8: a status read before any status write, with N AudioClips on
disk, returns the synthesized default record with status `idle`,
audio_count N, and null last_trained and model_path. -/
theorem status_read_before_write_default (s : TrainerState)
    (h : s.statusFile = none) (hdir : s.audioDirExists = true ∨ s.clips = []) :
    get_status s = Except.ok
      { status := "idle", audio_count := s.clips.length,
        last_trained := none, model_path := none } := by
  rcases hdir with hd | hd
  · simp [get_status, defaultStatus, h, hd]
  · simp [get_status, defaultStatus, h, hd]

/-- Claim C8 witness: the property evaluated on a fresh two-clip state. -/
theorem status_read_before_write_default_witness :
    freshState.statusFile = none ∧
    (freshState.audioDirExists = true ∨ freshState.clips = []) ∧
    get_status freshState = Except.ok
      { status := "idle", audio_count := freshState.clips.length,
        last_trained := none, model_path := none } :=
  ⟨rfl, Or.inl rfl, status_read_before_write_default freshState rfl (Or.inl rfl)⟩

/-- Claim C9 counterexample: persisting the ReferenceSample is not a
write-to-temporary-location-then-rename sequence. -/
theorem persist_not_temp_then_rename :
    ¬ ∃ tmp final, persistReferenceOps =
      [FsOp.writeFile tmp, FsOp.rename tmp final] := by
  rintro ⟨tmp, final, h⟩
  simp [persistReferenceOps] at h

/-- Claim C9 (amended): the ReferenceSample is persisted by a single direct
write to its final path, with no temporary file and no rename, so atomic
replacement from a reader's perspective is not provided by the code. -/
theorem persist_single_direct_write :
    persistReferenceOps = [FsOp.writeFile referencePathStr] ∧
    persistReferenceOps.all
      (fun op => match op with
        | FsOp.rename _ _ => false
        | FsOp.writeFile _ => true) = true :=
  ⟨rfl, rfl⟩

/-- Claim C10: a run over two or more AudioClips that all fail to decode
still completes successfully: it persists an empty (zero-duration)
ReferenceSample and writes status `ready` rather than an error. -/
theorem all_fail_run_ready (s : TrainerState) (t1 t2 : Nat)
    (h2 : 2 ≤ s.clips.length) (hall : ∀ c ∈ s.clips, c.data = none) :
    (train s t1 t2).snd = Except.ok () ∧
    (train s t1 t2).fst.reference = some [] ∧
    (train s t1 t2).fst.statusFile = some (some
      { status := "ready", audio_count := s.clips.length, last_trained := some t2,
        model_path := some referencePathStr }) := by
  have hne : s.clips ≠ [] := by
    intro h
    rw [h] at h2
    simp at h2
  have hsingle : ∀ c, sortClips s.clips = [c] → c.data ≠ none := by
    intro c hc
    exfalso
    have hl := sortClips_length s.clips
    rw [hc] at hl
    simp at hl
    omega
  have hfm : (sortClips s.clips).filterMap (fun c => c.data) = [] := by
    rw [List.filterMap_eq_nil_iff]
    intro c hc
    have hm : c ∈ s.clips := (sortClips_perm s.clips).mem_iff.mp hc
    simp [hall c hm]
  have hc : concatenate_audio s.clips = Except.ok ([] : PCM) := by
    rw [concatenate_audio_eq s.clips hne hsingle, combineAll_eq_flatten, hfm]
    rfl
  rw [train_eq, hc]
  simp [update_status]

/-- Claim C10 witness: the property evaluated on two undecodable clips. -/
theorem all_fail_run_ready_witness :
    2 ≤ twoBadState.clips.length ∧ (∀ c ∈ twoBadState.clips, c.data = none) ∧
    ((train twoBadState 0 1).snd = Except.ok () ∧
     (train twoBadState 0 1).fst.reference = some [] ∧
     (train twoBadState 0 1).fst.statusFile = some (some
      { status := "ready", audio_count := twoBadState.clips.length,
        last_trained := some 1, model_path := some referencePathStr })) :=
  ⟨by decide, by decide, all_fail_run_ready twoBadState 0 1 (by decide) (by decide)⟩
